import Mathlib

/-!
Verification of the small-buffer-optimized array container of
src/sbo_array.h against its natural-language specification.

The container SboArray<T, size_threshold> is shallowly embedded at the
value level: a container state is the ordered list of live elements
(the positions 0..count_-1 of the active storage, in order) together
with the capacity_ and using_heap_ fields of the source.  The inline
stack buffer versus heap block distinction is the usingHeap flag; the
cached data pointer cached_data_ptr_ of the source is a derived
quantity (recomputed by UpdateDataPointer after every mutation) and is
not modelled separately.  The compile-time constant size_threshold is
passed as an explicit first argument t.  size_t arithmetic stays far
below 2^64 in every scenario considered, so Nat is used directly; the
growth factor 2.0f of CheckSize is modelled as multiplication by 2,
which is the exact value of the float computation for every capacity
below 2^24.

A second embedding (structure SboOwned) additionally records the
identity of the owned heap block, to state ownership-transfer facts
about move construction/assignment and about allocation failure.  A
third, event-trace embedding (NpState) records the constructor and
destructor calls the source performs for a non-plain element type.
-/

namespace Sbo

/-- State of SboArray<T, size_threshold>: elems models the live
elements (slots 0..count_-1 of the active storage, in insertion
order), capacity models capacity_, usingHeap models using_heap_.
size() is elems.length. -/
@[ext]
structure SboArray (α : Type) where
  elems : List α
  capacity : Nat
  usingHeap : Bool
  deriving Repr, DecidableEq

variable {α : Type}

/-- size() / the count_ field: the number of live elements. -/
def count (s : SboArray α) : Nat := s.elems.length

/-- using_stack_buffer() accessor: returns !using_heap_. -/
def usingStackBuffer (s : SboArray α) : Bool := !s.usingHeap

/-- ContainerConstructor (default constructor): count_ = 0,
capacity_ = size_threshold, using_heap_ = false (member initializer). -/
def ContainerConstructor (t : Nat) : SboArray α :=
  { elems := [], capacity := t, usingHeap := false }

/-- ContainerConstructor_Size(size): capacity_ = (size <= threshold ?
threshold : size), count_ = size; the source never sets using_heap_
(it keeps its member-initializer value false) and never allocates.
The d argument stands for the default-constructed (for non-plain
types) or indeterminate (for plain types) slot value; no claim reads
these values. -/
def ContainerConstructor_Size (t : Nat) (sz : Nat) (d : α) : SboArray α :=
  { elems := List.replicate sz d
    capacity := if sz ≤ t then t else sz
    usingHeap := false }

/-- ContainerConstructor_List(init): count_ = capacity_ = init.size(),
using_heap_ = capacity_ > threshold, elements copy-constructed from
the list in order. -/
def ContainerConstructor_List (t : Nat) (init : List α) : SboArray α :=
  { elems := init, capacity := init.length, usingHeap := decide (t < init.length) }

/-- ContainerConstructor_Copy(rhs): fresh storage, capacity_ =
rhs.capacity_, using_heap_ recomputed as capacity_ > threshold,
elements copy-constructed from rhs in order. -/
def ContainerConstructor_Copy (t : Nat) (rhs : SboArray α) : SboArray α :=
  { elems := rhs.elems, capacity := rhs.capacity, usingHeap := decide (t < rhs.capacity) }

/-- Resize(new_cap) from the source: new_capacity = max(new_cap,
size_threshold); number_of_elements_to_move = min(count_,
new_capacity); will_use_heap = new_capacity > size_threshold; early
return when both capacity and mode already match; otherwise relocate
the elements into the new storage and commit count_, capacity_,
using_heap_. -/
def Resize (t : Nat) (s : SboArray α) (new_cap : Nat) : SboArray α :=
  if max new_cap t = s.capacity ∧ decide (t < max new_cap t) = s.usingHeap then s
  else
    { elems := s.elems.take (min (count s) (max new_cap t))
      capacity := max new_cap t
      usingHeap := decide (t < max new_cap t) }

/-- Reserve(new_cap): resize only when new_cap > capacity_. -/
def Reserve (t : Nat) (s : SboArray α) (new_cap : Nat) : SboArray α :=
  if s.capacity < new_cap then Resize t s new_cap else s

/-- ShrinkToFit(): resize down to count_ when count_ < capacity_. -/
def ShrinkToFit (t : Nat) (s : SboArray α) : SboArray α :=
  if count s < s.capacity then Resize t s (count s) else s

/-- CheckSize(): when count_ == capacity_, grow to size_threshold if
capacity_ == 0, else to capacity_ * 2 (growth_factor = 2.0f in the
source; the float product truncated back to size_t equals 2 *
capacity_ for every capacity below 2^24), via Resize. -/
def CheckSize (t : Nat) (s : SboArray α) : SboArray α :=
  if count s = s.capacity then
    Resize t s (if s.capacity = 0 then t else 2 * s.capacity)
  else s

/-- PushBack_Copy / PushBack_Move / EmplaceBack: CheckSize, construct
the new value in slot count_, increment count_.  All three source
functions have the same value-level effect. -/
def PushBack (t : Nat) (s : SboArray α) (v : α) : SboArray α :=
  { CheckSize t s with elems := (CheckSize t s).elems ++ [v] }

/-- Folding PushBack over a list of values, first value pushed first. -/
def PushAll (t : Nat) (s : SboArray α) (l : List α) : SboArray α :=
  l.foldl (PushBack t) s

/-- PopBack(): destroy slot count_ - 1, decrement count_
(precondition count_ > 0 is an assert in the source). -/
def PopBack (s : SboArray α) : SboArray α :=
  { s with elems := s.elems.dropLast }

/-- At(i): the checked access; throws std::out_of_range when
i >= count_, else returns the element; the container state (second
component) is untouched either way. The error payload is the
offending index. -/
def At (s : SboArray α) (i : Nat) : Except Nat α × SboArray α :=
  (if h : i < count s then Except.ok (s.elems.get ⟨i, h⟩) else Except.error i, s)

/-- Insert(pos, value): index = pos - begin(); CheckSize when count_ ==
capacity_ (CheckSize re-tests the same condition, so the composition
is unconditional); recompute pos; shift [pos, end) one slot right
(memmove for plain types, move_backward otherwise); construct value at
pos; increment count_; return pos. Positions are modelled as indices
from begin(). -/
def Insert (t : Nat) (s : SboArray α) (index : Nat) (v : α) : SboArray α × Nat :=
  ({ CheckSize t s with
      elems := (CheckSize t s).elems.take index ++ v :: (CheckSize t s).elems.drop index },
   index)

/-- Erase(pos): when pos < begin() or pos >= end(), return end()
without mutating; else shift [pos+1, end) one slot left, destroy the
vacated last slot, decrement count_, return pos.  Positions are
modelled as signed offsets from begin(); end() is the offset count_. -/
def Erase (s : SboArray α) (pos : Int) : SboArray α × Int :=
  if pos < 0 ∨ (count s : Int) ≤ pos then (s, (count s : Int))
  else
    ({ s with elems := s.elems.take pos.toNat ++ s.elems.drop (pos.toNat + 1) },
     pos)

/-- EraseRange(first, last): when first < begin() or last > end() or
first > last, return end() without mutating; when first == last,
return first without mutating; else shift [last, end) left to first,
destroy the n = last - first vacated trailing slots, decrement count_
by n, return first. -/
def EraseRange (s : SboArray α) (first last : Int) : SboArray α × Int :=
  if first < 0 ∨ (count s : Int) < last ∨ last < first then (s, (count s : Int))
  else if first = last then (s, first)
  else
    ({ s with elems := s.elems.take first.toNat ++ s.elems.drop last.toNat },
     first)

/-- The invariant stated by the specification: size() <= capacity(),
capacity() >= threshold, and using_stack_buffer() == (capacity() <=
threshold). -/
def MainInvariant (t : Nat) (s : SboArray α) : Prop :=
  count s ≤ s.capacity ∧ t ≤ s.capacity ∧ usingStackBuffer s = decide (s.capacity ≤ t)

instance (t : Nat) (s : SboArray α) : Decidable (MainInvariant t s) :=
  inferInstanceAs (Decidable (_ ∧ _ ∧ _))

/-- Container state enriched with the identity of the owned heap
block: heapPtr models the storage_.heap_ptr union member (as an
abstract block identity, with none standing for nullptr or for an
inactive union member).  Used for the ownership-transfer and
allocation-failure claims. -/
@[ext]
structure SboOwned (α : Type) where
  elems : List α
  capacity : Nat
  usingHeap : Bool
  heapPtr : Option Nat
  deriving Repr, DecidableEq

/-- size() on the enriched state. -/
def ownedCount (s : SboOwned α) : Nat := s.elems.length

/-- using_stack_buffer() on the enriched state. -/
def ownedUsingStackBuffer (s : SboOwned α) : Bool := !s.usingHeap

/-- The heap block an instance currently owns: its heap_ptr when
using_heap_ is set, nothing otherwise (the destructor frees
storage_.heap_ptr only when using_heap_). -/
def ownedBlock (s : SboOwned α) : Option Nat :=
  if s.usingHeap then s.heapPtr else none

/-- ContainerConstructor_Move(rhs): the new instance takes rhs's
count_, capacity_ and using_heap_; in heap mode it takes rhs's heap
pointer, in stack mode it MoveElements the elements into its own
inline buffer (its heapPtr union member stays inactive).  rhs is then
reset to count_ = 0, capacity_ = threshold, using_heap_ = false; the
source does not null rhs.storage_.heap_ptr here, so rhs keeps the
stale pointer value while no longer owning it. -/
def ContainerConstructor_Move (t : Nat) (rhs : SboOwned α) : SboOwned α × SboOwned α :=
  ( { elems := rhs.elems
      capacity := rhs.capacity
      usingHeap := rhs.usingHeap
      heapPtr := if rhs.usingHeap then rhs.heapPtr else none },
    { elems := []
      capacity := t
      usingHeap := false
      heapPtr := rhs.heapPtr } )

/-- ContainerAssignment_Move(rhs): guarded by this != &rhs (the
selfIsRhs flag models that pointer comparison); when distinct, destroy
this's elements, free this's heap block if owned, bitwise-copy rhs's
storage_/count_/capacity_/using_heap_, then reset rhs to an empty
inline state with heap_ptr = nullptr.  Returns (this, rhs) after the
call. -/
def ContainerAssignment_Move (t : Nat) (self rhs : SboOwned α) (selfIsRhs : Bool) :
    SboOwned α × SboOwned α :=
  if selfIsRhs then (self, self)
  else
    ( { elems := rhs.elems
        capacity := rhs.capacity
        usingHeap := rhs.usingHeap
        heapPtr := rhs.heapPtr },
      { elems := []
        capacity := t
        usingHeap := false
        heapPtr := none } )

/-- ContainerAssignment_Copy(rhs): guarded by this != &rhs; when
distinct, copy-and-swap: build a temporary via the copy constructor
(fresh heap block freshBlock when rhs.capacity_ > threshold,
using_heap_ recomputed) and swap this with it. -/
def ContainerAssignment_Copy (t : Nat) (self rhs : SboOwned α) (selfIsRhs : Bool)
    (freshBlock : Nat) : SboOwned α :=
  if selfIsRhs then self
  else
    { elems := rhs.elems
      capacity := rhs.capacity
      usingHeap := decide (t < rhs.capacity)
      heapPtr := if t < rhs.capacity then some freshBlock else none }

/-- Resize with a fallible allocator, plain-element-type path: Malloc
uses malloc, whose failure is signalled by a nullptr return (alloc =
none) that the source never checks.  On failure the source still
memmoves the live elements into the null block (the elements are
lost; in a real execution this is a write through a null pointer),
frees the old heap block if one was owned, stores the null pointer and
commits capacity_/using_heap_.  The second component lists the heap
blocks freed by the call. -/
def Resize_plainAllocFail (t : Nat) (s : SboOwned α) (new_cap : Nat)
    (alloc : Option Nat) : SboOwned α × List Nat :=
  if max new_cap t = s.capacity ∧ decide (t < max new_cap t) = s.usingHeap then (s, [])
  else
    ( { elems :=
          if decide (t < max new_cap t) && alloc.isNone then []
          else s.elems.take (min s.elems.length (max new_cap t))
        capacity := max new_cap t
        usingHeap := decide (t < max new_cap t)
        heapPtr := if t < max new_cap t then alloc else none },
      if s.usingHeap then s.heapPtr.toList else [] )

/-- Resize with a fallible allocator, non-plain path: Malloc uses
operator new, which throws on failure (alloc = none); the throw
happens before any element is moved, any destructor runs, or any
field is written, so an error result leaves the container in its
prior state with nothing freed. -/
def Resize_nonPlainAllocFail (t : Nat) (s : SboOwned α) (new_cap : Nat)
    (alloc : Option Nat) : Except Unit (SboOwned α × List Nat) :=
  if max new_cap t = s.capacity ∧ decide (t < max new_cap t) = s.usingHeap then
    Except.ok (s, [])
  else if decide (t < max new_cap t) && alloc.isNone then Except.error ()
  else
    Except.ok
      ( { elems := s.elems.take (min s.elems.length (max new_cap t))
          capacity := max new_cap t
          usingHeap := decide (t < max new_cap t)
          heapPtr := if t < max new_cap t then alloc else none },
        if s.usingHeap then s.heapPtr.toList else [] )

/-- The concrete failing container for the allocation-failure claim: a
plain-type container holding [1, 2, 3] in a heap block (identity 7) of
capacity 4, with threshold 2. -/
def allocFailState : SboOwned Nat :=
  { elems := [1, 2, 3], capacity := 4, usingHeap := true, heapPtr := some 7 }

/-- A constructor or destructor call performed by the source on a slot
of some storage region (region 0 is the inline stack buffer, regions
1, 2, ... are heap blocks in allocation order). -/
inductive Ev where
  | construct (store idx : Nat)
  | destruct (store idx : Nat)
  deriving Repr, DecidableEq

/-- Number of occurrences of an event in a trace. -/
def evCount (tr : List Ev) (e : Ev) : Nat :=
  (tr.filter (fun x => decide (x = e))).length

/-- The constructor/destructor calls of MoveElements(dest, src, n) for
a non-plain element type: for i = n down to 1, move-construct
dest[i-1] then destroy src[i-1]. -/
def MoveElementsEvents (dst src : Nat) : Nat → List Ev
  | 0 => []
  | n + 1 => Ev.construct dst n :: Ev.destruct src n :: MoveElementsEvents dst src n

/-- MoveElements including its dest == src early return. -/
def MoveElementsCalls (dst src : Nat) (n : Nat) : List Ev :=
  if dst = src then [] else MoveElementsEvents dst src n

/-- The destructor calls of CallDestructors(): destroy slots
0..count_-1 of the active storage, in order. -/
def CallDestructorsCalls (store n : Nat) : List Ev :=
  (List.range n).map (Ev.destruct store)

/-- Field-level state for the non-plain trace model: count_,
capacity_, using_heap_, the identity of the active storage region
(0 = inline buffer) and the next fresh heap block identity (models
Malloc handing out distinct blocks). -/
structure NpState where
  count : Nat
  capacity : Nat
  usingHeap : Bool
  store : Nat
  nextBlock : Nat
  deriving Repr, DecidableEq

/-- Resize(new_cap) for a non-plain element type, recording the
constructor/destructor calls it performs: after the early return
check it MoveElements min(count_, new_capacity) elements into the new
region, then CallDestructors over the old active region (using_heap_
and count_ are not yet updated at that point, so this hits the
source slots 0..count_-1 again), then frees the old heap block if any
and commits. -/
def Resize_np (t : Nat) (s : NpState) (new_cap : Nat) : NpState × List Ev :=
  if max new_cap t = s.capacity ∧ decide (t < max new_cap t) = s.usingHeap then (s, [])
  else
    ( { count := min s.count (max new_cap t)
        capacity := max new_cap t
        usingHeap := decide (t < max new_cap t)
        store := if t < max new_cap t then s.nextBlock else 0
        nextBlock := if t < max new_cap t then s.nextBlock + 1 else s.nextBlock },
      MoveElementsCalls (if t < max new_cap t then s.nextBlock else 0) s.store
          (min s.count (max new_cap t))
        ++ CallDestructorsCalls s.store s.count )

/-- CheckSize() for the non-plain trace model. -/
def CheckSize_np (t : Nat) (s : NpState) : NpState × List Ev :=
  if s.count = s.capacity then
    Resize_np t s (if s.capacity = 0 then t else 2 * s.capacity)
  else (s, [])

/-- push_back for the non-plain trace model: CheckSize, then placement
new into slot count_ of the active storage, then increment count_. -/
def PushBack_np (t : Nat) (s : NpState) : NpState × List Ev :=
  ( { (CheckSize_np t s).fst with count := (CheckSize_np t s).fst.count + 1 },
    (CheckSize_np t s).snd ++ [Ev.construct (CheckSize_np t s).fst.store (CheckSize_np t s).fst.count] )

/-- The default-constructed state for the trace model: empty, inline,
capacity_ = threshold; heap block identities start at 1. -/
def InitNp (t : Nat) : NpState :=
  { count := 0, capacity := t, usingHeap := false, store := 0, nextBlock := 1 }

/-- State and cumulative trace after k push_back calls on a
default-constructed container. -/
def PushTrace_np (t : Nat) : Nat → NpState × List Ev
  | 0 => (InitNp t, [])
  | k + 1 =>
      ( (PushBack_np t (PushTrace_np t k).fst).fst,
        (PushTrace_np t k).snd ++ (PushBack_np t (PushTrace_np t k).fst).snd )

/-- Full lifetime trace for a non-plain element type: default
construct, push_back k elements, then run the destructor
(ContainerDestructor = CallDestructors + free). -/
def LifecycleTrace_np (t k : Nat) : List Ev :=
  (PushTrace_np t k).snd
    ++ CallDestructorsCalls (PushTrace_np t k).fst.store (PushTrace_np t k).fst.count

theorem Resize_capacity (t : Nat) (s : SboArray α) (nc : Nat) :
    (Resize t s nc).capacity = max nc t := by
  unfold Resize
  split
  · rename_i h
    exact h.1.symm
  · rfl

theorem Resize_usingHeap (t : Nat) (s : SboArray α) (nc : Nat) :
    (Resize t s nc).usingHeap = decide (t < max nc t) := by
  unfold Resize
  split
  · rename_i h
    exact h.2.symm
  · rfl

theorem Resize_elems_of_le (t : Nat) (s : SboArray α) (nc : Nat)
    (h : count s ≤ max nc t) : (Resize t s nc).elems = s.elems := by
  unfold Resize
  split
  · rfl
  · show s.elems.take (min (count s) (max nc t)) = s.elems
    rw [Nat.min_eq_left h]
    exact List.take_length s.elems

theorem CheckSize_elems (t : Nat) (s : SboArray α) :
    (CheckSize t s).elems = s.elems := by
  unfold CheckSize
  split
  · rename_i h
    apply Resize_elems_of_le
    split <;> omega
  · rfl

theorem CheckSize_capacity (t : Nat) (s : SboArray α) (h0 : count s = s.capacity)
    (h1 : s.capacity = 0 ∨ t ≤ s.capacity) :
    (CheckSize t s).capacity = if s.capacity = 0 then t else 2 * s.capacity := by
  unfold CheckSize
  rw [if_pos h0, Resize_capacity]
  split <;> omega

theorem CheckSize_usingHeap_of_full (t : Nat) (s : SboArray α)
    (h0 : count s = s.capacity) (h1 : t ≤ s.capacity) (h2 : 0 < s.capacity) :
    (CheckSize t s).usingHeap = true := by
  unfold CheckSize
  rw [if_pos h0, if_neg (by omega : ¬ s.capacity = 0), Resize_usingHeap]
  simp only [decide_eq_true_eq]
  omega

theorem PushBack_of_lt (t : Nat) (xs : List α) (v : α) (h : xs.length < t) :
    PushBack t { elems := xs, capacity := t, usingHeap := false } v
      = { elems := xs ++ [v], capacity := t, usingHeap := false } := by
  have hc : CheckSize t ({ elems := xs, capacity := t, usingHeap := false } : SboArray α)
      = { elems := xs, capacity := t, usingHeap := false } := by
    unfold CheckSize
    rw [if_neg]
    show ¬ xs.length = t
    omega
  unfold PushBack
  rw [hc]

theorem PushBack_of_full (t : Nat) (xs : List α) (v : α) (ht : 0 < t)
    (h : xs.length = t) :
    PushBack t { elems := xs, capacity := t, usingHeap := false } v
      = { elems := xs ++ [v], capacity := 2 * t, usingHeap := true } := by
  have hc : CheckSize t ({ elems := xs, capacity := t, usingHeap := false } : SboArray α)
      = { elems := xs, capacity := 2 * t, usingHeap := true } := by
    have h0 : count ({ elems := xs, capacity := t, usingHeap := false } : SboArray α)
        = ({ elems := xs, capacity := t, usingHeap := false } : SboArray α).capacity := h
    apply SboArray.ext
    · rw [CheckSize_elems]
    · rw [CheckSize_capacity t _ h0 (Or.inr (Nat.le_refl t))]
      simp only []
      rw [if_neg (by omega : ¬ t = 0)]
    · exact CheckSize_usingHeap_of_full t _ h0 (Nat.le_refl t) ht
  unfold PushBack
  rw [hc]

theorem PushAll_append_singleton (t : Nat) (s : SboArray α) (xs : List α) (a : α) :
    PushAll t s (xs ++ [a]) = PushBack t (PushAll t s xs) a := by
  simp [PushAll, List.foldl_append]

theorem PushAll_take (t : Nat) (l : List α) (hl : l.length = t + 1) :
    ∀ j, j ≤ t → PushAll t (ContainerConstructor t) (l.take j)
      = { elems := l.take j, capacity := t, usingHeap := false } := by
  intro j
  induction j with
  | zero =>
      intro _
      simp [PushAll, ContainerConstructor]
  | succ k ih =>
      intro hk
      have hk1 : k ≤ t := Nat.le_of_succ_le hk
      have hkl : k < l.length := by omega
      have htake : l.take (k + 1) = l.take k ++ [l.get ⟨k, hkl⟩] := by
        rw [List.take_succ, List.getElem?_eq_getElem hkl]
        rfl
      have hlen : (l.take k).length = k := by
        rw [List.length_take]
        omega
      calc PushAll t (ContainerConstructor t) (l.take (k + 1))
          = PushBack t (PushAll t (ContainerConstructor t) (l.take k)) (l.get ⟨k, hkl⟩) := by
            rw [htake, PushAll_append_singleton]
        _ = PushBack t { elems := l.take k, capacity := t, usingHeap := false }
              (l.get ⟨k, hkl⟩) := by rw [ih hk1]
        _ = { elems := l.take k ++ [l.get ⟨k, hkl⟩], capacity := t, usingHeap := false } :=
              PushBack_of_lt t _ _ (by omega)
        _ = { elems := l.take (k + 1), capacity := t, usingHeap := false } := by rw [htake]

/-- C1: the claim states that after every public operation from any
constructor, size() <= capacity(), capacity() >= threshold and
using_stack_buffer() == (capacity() <= threshold).  The code violates
this already at two constructors (threshold 4 here): the sized
constructor with size 5 leaves using_heap_ == false (it never sets it
and never allocates) although capacity_ == 5 > threshold, and the
initializer-list constructor with two elements leaves capacity_ == 2
< threshold. -/
theorem C1_constructor_invariant_violation :
    ¬ MainInvariant 4 (ContainerConstructor_Size 4 5 (0 : Nat)) ∧
    usingStackBuffer (ContainerConstructor_Size 4 5 (0 : Nat)) = true ∧
    (ContainerConstructor_Size 4 5 (0 : Nat)).capacity = 5 ∧
    ¬ MainInvariant 4 (ContainerConstructor_List 4 [1, 2]) ∧
    (ContainerConstructor_List 4 [(1 : Nat), 2]).capacity = 2 := by
  decide

/-- C2: the claim states that for non-plain element types every
constructed slot receives exactly one destructor call and no dead
slot is ever destroyed.  The code violates this on every reallocation:
with threshold 2, pushing three elements onto a default-constructed
container makes Resize first run MoveElements (which destroys each
inline source slot after moving it) and then CallDestructors over the
same, already dead, inline slots.  Slot 0 of the stack buffer is
constructed once but destroyed twice over the lifetime below (default
construct, three push_back calls, destructor). -/
theorem C2_double_destructor_on_realloc :
    evCount (LifecycleTrace_np 2 3) (Ev.destruct 0 0) = 2 ∧
    evCount (LifecycleTrace_np 2 3) (Ev.construct 0 0) = 1 ∧
    evCount (LifecycleTrace_np 2 3) (Ev.destruct 0 1) = 2 ∧
    evCount (LifecycleTrace_np 2 3) (Ev.construct 0 1) = 1 := by
  decide

/-- C3: when a push_back / emplace_back / insert finds count_ ==
capacity_, CheckSize grows the capacity to threshold if the capacity
was zero and to twice the capacity otherwise; and pushing
threshold + 1 values into a default-constructed container keeps
using_stack_buffer() true through the first threshold pushes, leaves
it false after push threshold + 1 (so it flips exactly once), and all
threshold + 1 values are readable at indices 0..threshold in
insertion order.  Hypotheses: 0 < t (a zero threshold declares a
zero-length array member and is not a valid instantiation) and
capacity_ = 0 or capacity_ >= threshold (states with 0 < capacity_ <
threshold arise only through the defective list constructor, see
C1). -/
theorem C3_growth_roundtrip (α : Type) (t : Nat) (s : SboArray α) (l : List α)
    (ht : 0 < t) (hcap : s.capacity = 0 ∨ t ≤ s.capacity)
    (hfull : count s = s.capacity) (hl : l.length = t + 1) :
    (CheckSize t s).capacity = (if s.capacity = 0 then t else 2 * s.capacity) ∧
    (PushAll t (ContainerConstructor t) l).elems = l ∧
    usingStackBuffer (PushAll t (ContainerConstructor t) l) = false ∧
    (∀ j, j ≤ t → usingStackBuffer (PushAll t (ContainerConstructor t) (l.take j)) = true) := by
  have hT : t < l.length := by omega
  have htake1 : l.take (t + 1) = l := by
    rw [← hl]
    exact List.take_length l
  have hsplit : l = l.take t ++ [l.get ⟨t, hT⟩] := by
    conv_lhs => rw [← htake1]
    rw [List.take_succ, List.getElem?_eq_getElem hT]
    rfl
  have hlen : (l.take t).length = t := by
    rw [List.length_take]
    omega
  have hfin : PushAll t (ContainerConstructor t) l
      = { elems := l, capacity := 2 * t, usingHeap := true } := by
    conv_lhs => rw [hsplit]
    rw [PushAll_append_singleton, PushAll_take t l hl t (Nat.le_refl t),
      PushBack_of_full t _ _ ht hlen, ← hsplit]
  refine ⟨?_, ?_, ?_, ?_⟩
  · exact CheckSize_capacity t s hfull hcap
  · rw [hfin]
  · rw [hfin]
    rfl
  · intro j hj
    rw [PushAll_take t l hl j hj]
    rfl

/-- Witness for C3 at threshold 2, a full inline container [9, 9] and
the pushed values [5, 6, 7]. -/
theorem C3_growth_roundtrip_witness :
    ((0 : Nat) < 2) ∧
    (({ elems := [9, 9], capacity := 2, usingHeap := false } : SboArray Nat).capacity = 0
      ∨ 2 ≤ ({ elems := [9, 9], capacity := 2, usingHeap := false } : SboArray Nat).capacity) ∧
    (count ({ elems := [9, 9], capacity := 2, usingHeap := false } : SboArray Nat)
      = ({ elems := [9, 9], capacity := 2, usingHeap := false } : SboArray Nat).capacity) ∧
    (([5, 6, 7] : List Nat).length = 2 + 1) ∧
    ((CheckSize 2 ({ elems := [9, 9], capacity := 2, usingHeap := false } : SboArray Nat)).capacity
      = if ({ elems := [9, 9], capacity := 2, usingHeap := false } : SboArray Nat).capacity = 0
          then 2
          else 2 * ({ elems := [9, 9], capacity := 2, usingHeap := false } : SboArray Nat).capacity) ∧
    ((PushAll 2 (ContainerConstructor 2) [5, 6, 7]).elems = [5, 6, 7]) ∧
    (usingStackBuffer (PushAll 2 (ContainerConstructor 2) [5, 6, 7]) = false) ∧
    (∀ j, j ≤ 2 →
      usingStackBuffer (PushAll 2 (ContainerConstructor 2) ([5, 6, 7].take j)) = true) := by
  have h := C3_growth_roundtrip Nat 2 { elems := [9, 9], capacity := 2, usingHeap := false }
    [5, 6, 7] (by decide) (Or.inr (by decide)) (by decide) (by decide)
  exact ⟨by decide, Or.inr (by decide), by decide, by decide, h.1, h.2.1, h.2.2.1, h.2.2.2⟩

/-- C4: the claim states that allocator failure during a reallocation
propagates to the caller with the container left in its prior state
and the old storage intact.  For plain element types the code
violates this: Malloc uses malloc, whose nullptr failure return is
never checked, so Resize memmoves the elements into the null block,
frees the old heap block (identity 7 below) and commits the new
capacity and mode.  For non-plain types Malloc uses operator new,
whose exception is thrown before any mutation, so that path does obey
the claim: the error propagates with nothing mutated and nothing
freed. -/
theorem C4_malloc_failure_not_checked_plain :
    Resize_plainAllocFail 2 allocFailState 10 none
      = ({ elems := [], capacity := 10, usingHeap := true, heapPtr := none }, [7]) ∧
    (Resize_plainAllocFail 2 allocFailState 10 none).1 ≠ allocFailState ∧
    (Resize_plainAllocFail 2 allocFailState 10 none).2 ≠ [] ∧
    Resize_nonPlainAllocFail 2 allocFailState 10 none = Except.error () := by
  refine ⟨by decide, by decide, by decide, rfl⟩

/-- C5: reserve(n) with n > capacity() reallocates to capacity exactly
max(n, threshold) with the size and element values unchanged, and
reserve(n) with n <= capacity() changes nothing.  The hypothesis is
the container invariant size() <= capacity(). -/
theorem C5_reserve_spec (α : Type) (t : Nat) (s : SboArray α) (n : Nat)
    (hinv : count s ≤ s.capacity) :
    (s.capacity < n →
      (Reserve t s n).capacity = max n t ∧ (Reserve t s n).elems = s.elems) ∧
    (n ≤ s.capacity → Reserve t s n = s) := by
  constructor
  · intro hlt
    unfold Reserve
    rw [if_pos hlt]
    exact ⟨Resize_capacity t s n, Resize_elems_of_le t s n (by omega)⟩
  · intro hle
    unfold Reserve
    rw [if_neg (by omega)]

/-- Witness for C5 at threshold 4 on the inline container [1, 2] with
capacity 4: reserve(9) grows to max(9, 4) = 9 keeping the elements,
reserve(3) is a no-op. -/
theorem C5_reserve_spec_witness :
    (count ({ elems := [1, 2], capacity := 4, usingHeap := false } : SboArray Nat)
      ≤ ({ elems := [1, 2], capacity := 4, usingHeap := false } : SboArray Nat).capacity) ∧
    ((Reserve 4 ({ elems := [1, 2], capacity := 4, usingHeap := false } : SboArray Nat) 9).capacity
        = max 9 4 ∧
      (Reserve 4 ({ elems := [1, 2], capacity := 4, usingHeap := false } : SboArray Nat) 9).elems
        = [1, 2]) ∧
    (Reserve 4 ({ elems := [1, 2], capacity := 4, usingHeap := false } : SboArray Nat) 3
      = { elems := [1, 2], capacity := 4, usingHeap := false }) := by
  refine ⟨by decide, ?_, ?_⟩
  · exact (C5_reserve_spec Nat 4 { elems := [1, 2], capacity := 4, usingHeap := false } 9
      (by decide)).1 (by decide)
  · exact (C5_reserve_spec Nat 4 { elems := [1, 2], capacity := 4, usingHeap := false } 3
      (by decide)).2 (by decide)

/-- C6: for every valid position index <= size(), insert(pos, v)
increases the element count by one, returns the position of the
inserted element, places v there and keeps all pre-existing elements
in their relative order (the result is take index ++ v :: drop
index). -/
theorem C6_insert_spec (α : Type) (t : Nat) (s : SboArray α) (i : Nat) (v : α)
    (h : i ≤ count s) :
    count (Insert t s i v).1 = count s + 1 ∧
    (Insert t s i v).2 = i ∧
    (Insert t s i v).1.elems = s.elems.take i ++ v :: s.elems.drop i := by
  have he : (CheckSize t s).elems = s.elems := CheckSize_elems t s
  unfold Insert
  refine ⟨?_, rfl, ?_⟩
  · show ((CheckSize t s).elems.take i ++ v :: (CheckSize t s).elems.drop i).length
        = s.elems.length + 1
    rw [he, List.length_append, List.length_take, List.length_cons, List.length_drop]
    have : i ≤ s.elems.length := h
    omega
  · show (CheckSize t s).elems.take i ++ v :: (CheckSize t s).elems.drop i = _
    rw [he]

/-- Witness for C6: inserting 0 at begin() of [1, 2, 3] yields
[0, 1, 2, 3], count grows from 3 to 4, and the returned position is
begin(). -/
theorem C6_insert_spec_witness :
    (0 ≤ count ({ elems := [1, 2, 3], capacity := 4, usingHeap := false } : SboArray Nat)) ∧
    count (Insert 4 ({ elems := [1, 2, 3], capacity := 4, usingHeap := false } : SboArray Nat)
        0 0).1 = 4 ∧
    (Insert 4 ({ elems := [1, 2, 3], capacity := 4, usingHeap := false } : SboArray Nat)
        0 0).2 = 0 ∧
    (Insert 4 ({ elems := [1, 2, 3], capacity := 4, usingHeap := false } : SboArray Nat)
        0 0).1.elems = [0, 1, 2, 3] := by
  have h := C6_insert_spec Nat 4 { elems := [1, 2, 3], capacity := 4, usingHeap := false }
    0 0 (by decide)
  exact ⟨by decide, h.1, h.2.1, h.2.2⟩

/-- C7: erase(pos) with pos outside [begin, end) returns end() without
mutating; erase(first, last) with an invalid range (first < begin,
last > end or first > last) returns end() without mutating;
erase(first, last) with first == last (inside bounds, so that the
invalid-range test does not fire) returns first without mutating; a
valid erase(pos) returns pos.  Positions are signed offsets from
begin(); end() is the offset count. -/
theorem C7_erase_returns (α : Type) (s : SboArray α) (pos first last : Int) :
    ((pos < 0 ∨ (count s : Int) ≤ pos) → Erase s pos = (s, (count s : Int))) ∧
    ((first < 0 ∨ (count s : Int) < last ∨ last < first) →
      EraseRange s first last = (s, (count s : Int))) ∧
    ((0 ≤ first ∧ first = last ∧ last ≤ (count s : Int)) →
      EraseRange s first last = (s, first)) ∧
    ((0 ≤ pos ∧ pos < (count s : Int)) → (Erase s pos).2 = pos) := by
  refine ⟨?_, ?_, ?_, ?_⟩
  · intro h
    unfold Erase
    rw [if_pos h]
  · intro h
    unfold EraseRange
    rw [if_pos h]
  · rintro ⟨h1, h2, h3⟩
    unfold EraseRange
    rw [if_neg (by omega), if_pos h2]
  · rintro ⟨h1, h2⟩
    unfold Erase
    rw [if_neg (by omega)]

/-- Witness for C7 on the container [1, 2]: erase at offset 5 and
erase-range (-1, 1) return end() = 2 without mutating, the empty
range (1, 1) returns 1 without mutating, and the valid erase at
offset 0 returns 0. -/
theorem C7_erase_returns_witness :
    Erase ({ elems := [1, 2], capacity := 4, usingHeap := false } : SboArray Nat) 5
      = ({ elems := [1, 2], capacity := 4, usingHeap := false }, 2) ∧
    EraseRange ({ elems := [1, 2], capacity := 4, usingHeap := false } : SboArray Nat) (-1) 1
      = ({ elems := [1, 2], capacity := 4, usingHeap := false }, 2) ∧
    EraseRange ({ elems := [1, 2], capacity := 4, usingHeap := false } : SboArray Nat) 1 1
      = ({ elems := [1, 2], capacity := 4, usingHeap := false }, 1) ∧
    (Erase ({ elems := [1, 2], capacity := 4, usingHeap := false } : SboArray Nat) 0).2 = 0 := by
  refine ⟨?_, ?_, ?_, ?_⟩
  · exact (C7_erase_returns Nat { elems := [1, 2], capacity := 4, usingHeap := false }
      5 0 0).1 (by decide)
  · exact (C7_erase_returns Nat { elems := [1, 2], capacity := 4, usingHeap := false }
      0 (-1) 1).2.1 (by decide)
  · exact (C7_erase_returns Nat { elems := [1, 2], capacity := 4, usingHeap := false }
      0 1 1).2.2.1 (by decide)
  · exact (C7_erase_returns Nat { elems := [1, 2], capacity := 4, usingHeap := false }
      0 0 0).2.2.2 (by decide)

/-- C8: at(i) signals the out-of-range failure, carrying the offending
index, exactly when i >= size(); the container is untouched by the
call; and at(size() - 1) on a non-empty container succeeds and
returns the last element. -/
theorem C8_at_spec (α : Type) (s : SboArray α) (i : Nat) :
    ((At s i).1 = Except.error i ↔ count s ≤ i) ∧
    (At s i).2 = s ∧
    (0 < count s →
      ∃ v, s.elems.getLast? = some v ∧ (At s (count s - 1)).1 = Except.ok v) := by
  refine ⟨?_, rfl, ?_⟩
  · show (if h : i < count s then Except.ok (s.elems.get ⟨i, h⟩) else Except.error i)
        = Except.error i ↔ count s ≤ i
    by_cases h : i < count s
    · rw [dif_pos h]
      constructor
      · intro he
        exact absurd he (by simp)
      · intro hle
        omega
    · rw [dif_neg h]
      constructor
      · intro _
        omega
      · intro _
        rfl
  · intro h
    have hlt : count s - 1 < count s := by omega
    refine ⟨s.elems.get ⟨count s - 1, hlt⟩, ?_, ?_⟩
    · rw [List.getLast?_eq_getElem?]
      exact List.getElem?_eq_getElem hlt
    · show (if h2 : count s - 1 < count s then
            Except.ok (s.elems.get ⟨count s - 1, h2⟩)
          else Except.error (count s - 1)) = _
      rw [dif_pos hlt]

/-- Witness for C8 on the container [4, 5]: at(2) fails with index 2
leaving the container unchanged, and at(1) succeeds returning the
last element 5. -/
theorem C8_at_spec_witness :
    ((At ({ elems := [4, 5], capacity := 4, usingHeap := false } : SboArray Nat) 2).1
      = Except.error 2) ∧
    ((At ({ elems := [4, 5], capacity := 4, usingHeap := false } : SboArray Nat) 2).2
      = { elems := [4, 5], capacity := 4, usingHeap := false }) ∧
    (0 < count ({ elems := [4, 5], capacity := 4, usingHeap := false } : SboArray Nat)) ∧
    (∃ v, ([4, 5] : List Nat).getLast? = some v ∧
      (At ({ elems := [4, 5], capacity := 4, usingHeap := false } : SboArray Nat)
        (count ({ elems := [4, 5], capacity := 4, usingHeap := false } : SboArray Nat) - 1)).1
        = Except.ok v) := by
  have h := C8_at_spec Nat { elems := [4, 5], capacity := 4, usingHeap := false } 2
  exact ⟨h.1.mpr (by decide), h.2.1, by decide,
    (C8_at_spec Nat { elems := [4, 5], capacity := 4, usingHeap := false } 0).2.2 (by decide)⟩

/-- C9: after move construction or move assignment from a, the target
holds exactly the elements a held, in order; a is left with size()
== 0 and using_stack_buffer() == true; and a owns no heap block
afterwards (its using_heap_ is cleared, and in the assignment case
its pointer is also nulled), so the source and the target never both
own the same heap block at any observable point. -/
theorem C9_move_drains_source (α : Type) (t : Nat) (a self : SboOwned α) :
    (ContainerConstructor_Move t a).1.elems = a.elems ∧
    ownedCount (ContainerConstructor_Move t a).2 = 0 ∧
    ownedUsingStackBuffer (ContainerConstructor_Move t a).2 = true ∧
    ownedBlock (ContainerConstructor_Move t a).2 = none ∧
    (ContainerAssignment_Move t self a false).1.elems = a.elems ∧
    ownedCount (ContainerAssignment_Move t self a false).2 = 0 ∧
    ownedUsingStackBuffer (ContainerAssignment_Move t self a false).2 = true ∧
    ownedBlock (ContainerAssignment_Move t self a false).2 = none := by
  refine ⟨rfl, rfl, rfl, rfl, rfl, rfl, rfl, rfl⟩

/-- C10: copy-assigning or move-assigning a container to itself (the
this == &rhs guard in both assignment operators) leaves its size,
capacity, storage mode, heap pointer and element values unchanged. -/
theorem C10_self_assignment_noop (α : Type) (t : Nat) (s : SboOwned α) (freshBlock : Nat) :
    ContainerAssignment_Copy t s s true freshBlock = s ∧
    ContainerAssignment_Move t s s true = (s, s) := by
  exact ⟨rfl, rfl⟩

end Sbo
